import Mathlib

/-!
Verification development for the StreamDAB PAD-encoding core
(ODR-PadEnc enhancement sources under src/).

Conventions of the shallow embedding:
* C++ strings are byte lists (List Nat, each element < 256) when the code
  operates on raw bytes, and lists of Unicode code points (List Nat) when the
  code operates on UTF-16 units (std::u16string).
* std::chrono time points are integers (Int), counted in seconds; a
  default-constructed time point is 0 ("epoch").
* C++ double arithmetic is idealized as exact rational (ℚ) or real (ℝ)
  arithmetic; no claim below hinges on floating-point rounding.
* MD5 content hashing is abstracted by the identity digest on the hashed
  text (an injective digest), since no claim depends on hash collisions.
-/

/-! ## Thai DAB character mapping
Embedding of ThaiLanguageProcessor::InitializeUTF8ToDABMapping,
ConvertUTF8ToDAB and ConvertDABToUTF8 (src/thai_rendering.cpp lines 24-65
and 182-249). The C++ populates an unordered_map; entry order is
irrelevant because repeated insertions assign the same value. -/

/-- Thai consonants: for 0x0E01 <= i <= 0x0E2E, map[i] = i - 0x0E01 + 0x01. -/
def consonantPairs : List (Nat × Nat) :=
  (List.range 46).map (fun i => (0x0E01 + i, 0x01 + i))

/-- Thai vowels/signs: for 0x0E30 <= i <= 0x0E4F, map[i] = i - 0x0E30 + 0x30. -/
def vowelPairs : List (Nat × Nat) :=
  (List.range 32).map (fun i => (0x0E30 + i, 0x30 + i))

/-- Thai digits: for 0x0E50 <= i <= 0x0E59, map[i] = i - 0x0E50 + 0x50. -/
def digitPairs : List (Nat × Nat) :=
  (List.range 10).map (fun i => (0x0E50 + i, 0x50 + i))

/-- Thai symbols angkhankhu and khomut. -/
def symbolPairs : List (Nat × Nat) := [(0x0E5A, 0x5A), (0x0E5B, 0x5B)]

/-- Re-insertions made by the constructor after the range loops (fongman,
maiyamok, maitaikhu, the tone marks, above vowels and below vowels); they
assign the same values as the vowel range loop. -/
def specialPairs : List (Nat × Nat) :=
  [(0x0E4F, 0x4F), (0x0E46, 0x46), (0x0E47, 0x47),
   (0x0E48, 0x48), (0x0E49, 0x49), (0x0E4A, 0x4A), (0x0E4B, 0x4B)] ++
  (List.range 7).map (fun i => (0x0E34 + i, 0x34 + i)) ++
  [(0x0E38, 0x38), (0x0E39, 0x39), (0x0E3A, 0x3A)]

/-- All entries inserted into utf8_to_dab_map_. -/
def utf8ToDabPairs : List (Nat × Nat) :=
  consonantPairs ++ vowelPairs ++ digitPairs ++ symbolPairs ++ specialPairs

/-- Lookup in utf8_to_dab_map_ (find on the map). -/
def utf8ToDabMap (c : Nat) : Option Nat := utf8ToDabPairs.lookup c

/-- Per-character encoding step of ConvertUTF8ToDAB: mapped Thai code point,
ASCII passthrough for c < 0x80, otherwise the replacement byte 0x3F. -/
def encodeThaiChar (c : Nat) : Nat :=
  match utf8ToDabMap c with
  | some b => b
  | none => if c < 0x80 then c else 0x3F

/-- ConvertUTF8ToDAB on a code-point sequence: the Thai charset tag 0x0E
followed by the per-character encoding. -/
def ConvertUTF8ToDAB (s : List Nat) : List Nat :=
  0x0E :: s.map encodeThaiChar

/-- Reverse lookup performed by ConvertDABToUTF8: scan the map for an entry
whose value is the DAB byte. The map is injective (every entry maps key k to
k - 0x0E00), so the unordered_map iteration order does not matter. -/
def dabReverseLookup (b : Nat) : Option Nat :=
  (utf8ToDabPairs.find? (fun p => p.2 == b)).map Prod.fst

/-- Per-byte decoding step of ConvertDABToUTF8: reverse map hit, else ASCII
passthrough for b < 0x80, else the replacement code point 0x3F. -/
def decodeDabByte (b : Nat) : Nat :=
  match dabReverseLookup b with
  | some c => c
  | none => if b < 0x80 then b else 0x3F

/-- ConvertDABToUTF8: empty or wrongly tagged input yields the empty string;
otherwise each byte after the 0x0E tag is decoded. -/
def ConvertDABToUTF8 (d : List Nat) : List Nat :=
  match d with
  | [] => []
  | b :: rest => if b = 0x0E then rest.map decodeDabByte else []

/-- Input restriction of claim C1: every character is a mapped Thai code
point or ASCII (hence none is replaced by 0x3F). -/
def thaiAsciiOnly (s : List Nat) : Bool :=
  s.all (fun c => (utf8ToDabMap c).isSome || c < 0x80)

theorem lookup_val_lt {l : List (Nat × Nat)} (hl : ∀ p ∈ l, p.2 < 128) :
    ∀ {c v : Nat}, l.lookup c = some v → v < 128 := by
  induction l with
  | nil => intro c v h; simp [List.lookup] at h
  | cons p rest ih =>
    intro c v h
    rw [List.lookup] at h
    by_cases hc : c == p.1
    · simp [hc] at h
      exact h ▸ hl p (List.mem_cons_self _ _)
    · simp [hc] at h
      exact ih (fun q hq => hl q (List.mem_cons_of_mem _ hq)) h

theorem lookup_none_of_lt {l : List (Nat × Nat)} (hl : ∀ p ∈ l, 128 ≤ p.1)
    {c : Nat} (hc : c < 128) : l.lookup c = none := by
  induction l with
  | nil => rfl
  | cons p rest ih =>
    rw [List.lookup]
    have h1 : ¬(c == p.1) = true := by
      simp only [beq_iff_eq]
      intro h
      exact absurd (hl p (List.mem_cons_self _ _)) (by omega)
    simp only [h1]
    exact ih (fun q hq => hl q (List.mem_cons_of_mem _ hq))

theorem utf8ToDabPairs_vals_lt : ∀ p ∈ utf8ToDabPairs, p.2 < 128 := by decide

theorem utf8ToDabPairs_keys_ge : ∀ p ∈ utf8ToDabPairs, 128 ≤ p.1 := by decide

theorem encodeThaiChar_lt (c : Nat) : encodeThaiChar c < 128 := by
  unfold encodeThaiChar
  cases h : utf8ToDabMap c with
  | some b => exact lookup_val_lt utf8ToDabPairs_vals_lt h
  | none =>
    by_cases hc : c < 0x80
    · simp only [if_pos hc]; omega
    · simp [hc]

set_option maxRecDepth 20000 in
theorem encode_decode_byte : ∀ b < 128, encodeThaiChar (decodeDabByte b) = b := by
  decide

theorem thai_encode_decode_encode (s : List Nat) :
    ConvertUTF8ToDAB (ConvertDABToUTF8 (ConvertUTF8ToDAB s)) = ConvertUTF8ToDAB s := by
  simp only [ConvertUTF8ToDAB, ConvertDABToUTF8, if_pos rfl, if_true, List.map_map]
  congr 1
  apply List.map_congr_left
  intro c _
  exact encode_decode_byte (encodeThaiChar c) (encodeThaiChar_lt c)

/-- C1: the Thai DAB encoder maps consonants U+0E01..U+0E2E to 0x01..0x2E,
vowels/signs U+0E30..U+0E4F to 0x30..0x4F, digits U+0E50..U+0E59 to
0x50..0x59 and the symbols U+0E5A..U+0E5B to 0x5A..0x5B, passes ASCII through
unchanged, maps every unmapped non-ASCII code point to 0x3F, prefixes the tag
0x0E, and for every Thai-plus-ASCII input whose characters are not replaced
by 0x3F the byte stream is a fixed point of encode after decode. -/
theorem C1_thai_mapping_roundtrip :
    (∀ i < 46, utf8ToDabMap (0x0E01 + i) = some (0x01 + i)) ∧
    (∀ i < 32, utf8ToDabMap (0x0E30 + i) = some (0x30 + i)) ∧
    (∀ i < 10, utf8ToDabMap (0x0E50 + i) = some (0x50 + i)) ∧
    utf8ToDabMap 0x0E5A = some 0x5A ∧
    utf8ToDabMap 0x0E5B = some 0x5B ∧
    (∀ c, c < 0x80 → encodeThaiChar c = c) ∧
    (∀ c, utf8ToDabMap c = none → 0x80 ≤ c → encodeThaiChar c = 0x3F) ∧
    (∀ s, ConvertUTF8ToDAB s = 0x0E :: s.map encodeThaiChar) ∧
    (∀ s, thaiAsciiOnly s = true →
      ConvertUTF8ToDAB (ConvertDABToUTF8 (ConvertUTF8ToDAB s)) = ConvertUTF8ToDAB s) := by
  refine ⟨by decide, by decide, by decide, by decide, by decide, ?_, ?_, fun _ => rfl, ?_⟩
  · intro c hc
    have hnone : utf8ToDabMap c = none := lookup_none_of_lt utf8ToDabPairs_keys_ge hc
    simp [encodeThaiChar, hnone, hc]
  · intro c hnone hge
    simp [encodeThaiChar, hnone, Nat.not_lt.mpr hge]
  · intro s _
    exact thai_encode_decode_encode s

/-- Witness for C1 at the concrete input ส ว A (U+0E2A, U+0E27, ASCII 0x41). -/
theorem C1_thai_mapping_roundtrip_witness :
    thaiAsciiOnly [0x0E2A, 0x0E27, 0x41] = true ∧
    ConvertUTF8ToDAB (ConvertDABToUTF8 (ConvertUTF8ToDAB [0x0E2A, 0x0E27, 0x41])) =
      ConvertUTF8ToDAB [0x0E2A, 0x0E27, 0x41] :=
  ⟨by decide,
   C1_thai_mapping_roundtrip.2.2.2.2.2.2.2.2 [0x0E2A, 0x0E27, 0x41] (by decide)⟩

/-! ## Smart DLS queue
Embedding of SmartDLSQueue (src/smart_dls.cpp lines 43-210 and
src/smart_dls.h). Times are seconds as Int; doubles are rationals.
The queue field lists the heap contents in pop order of MessageComparator;
no claim below depends on that order or on heap re-ordering after push.
message_index_ and content_hashes_ are association lists with
most-recent-first overwrite semantics. shared_ptr aliasing between the heap
and the index is not modelled; no claim below reads a message through the
index after a queue-side mutation. -/

/-- DLSMessage (src/smart_dls.h lines 65-89). text holds the UTF-8 bytes;
enum fields are their ordinals. -/
structure DLSMessage where
  text : List Nat
  priority : Int := 2
  source : Int := 0
  createdAt : Int := 0
  expiresAt : Int := 0
  lastSent : Int := 0
  sendCount : Int := 0
  maxSends : Int := 0
  importanceScore : ℚ := 1/2
  sourceId : List Nat := []
  contentHash : List Nat := []
  isThaiContent : Bool := false
deriving DecidableEq

/-- SelectionCriteria (src/smart_dls.h lines 92-105). -/
structure SelectionCriteria where
  allowedSources : List Int := []
  blockedSources : List Int := []
  minPriority : Int := 4
  maxPriority : Int := 0
  maxAge : Int := 3600
  allowRepeats : Bool := true
  maxRepeatCount : Int := 3
  minRepeatInterval : Int := 300
  maxTextLength : Nat := 128
  preferThaiContent : Bool := false
  scoring : Option (DLSMessage → ℚ) := none

/-- State of SmartDLSQueue: the priority heap contents, message_index_ and
content_hashes_. -/
structure SmartDLSQueue where
  queue : List DLSMessage := []
  index : List (List Nat × DLSMessage) := []
  hashes : List (List Nat × Int) := []

/-- CleanupExpiredMessages (src/smart_dls.cpp lines 192-210): entries with
expires_at < now are erased from message_index_ and content_hashes_. The
priority queue itself is not touched (the code comments that a rebuild
would be needed). -/
def CleanupExpiredMessages (st : SmartDLSQueue) (now : Int) : SmartDLSQueue :=
  let removed := st.index.filter (fun e => decide (e.2.expiresAt < now))
  { st with
    index := st.index.filter (fun e => !decide (e.2.expiresAt < now)),
    hashes := st.hashes.filter
      (fun h => !(removed.any (fun e => e.2.contentHash = h.1))) }

/-- Eligibility scan of GetNextMessage (src/smart_dls.cpp lines 100-164),
as one conjunction: each C++ if-statement that falsifies meets_criteria
appears negated, in source order. The text length check uses the byte
length of the stored UTF-8 string. -/
def meetsCriteria (c : SelectionCriteria) (now : Int) (m : DLSMessage) : Bool :=
  !(decide (m.priority < c.minPriority) || decide (m.priority > c.maxPriority)) &&
  !(decide (now - m.createdAt > c.maxAge)) &&
  (c.allowedSources.isEmpty || c.allowedSources.contains m.source) &&
  !(!c.blockedSources.isEmpty && c.blockedSources.contains m.source) &&
  !(!c.allowRepeats && decide (m.sendCount > 0)) &&
  !(decide (m.sendCount ≥ c.maxRepeatCount)) &&
  !(decide (m.sendCount > 0) && decide (now - m.lastSent < c.minRepeatInterval)) &&
  !(decide (m.text.length > c.maxTextLength)) &&
  !(decide (m.maxSends > 0) && decide (m.sendCount ≥ m.maxSends))

/-- Thai-preference side effect inside the scan (src/smart_dls.cpp lines
156-159): with prefer_thai_content set, every non-Thai message has its
importance score multiplied by 0.8 (the rational 4/5 here). -/
def thaiAdjust (c : SelectionCriteria) (m : DLSMessage) : DLSMessage :=
  if c.preferThaiContent && !m.isThaiContent then
    { m with importanceScore := m.importanceScore * (4/5) }
  else m

/-- Side effect on the selected message (src/smart_dls.cpp lines 185-187). -/
def updateSent (now : Int) (m : DLSMessage) : DLSMessage :=
  { m with lastSent := now, sendCount := m.sendCount + 1 }

/-- First maximum of the score over the candidate list (candidates carry
their heap position, standing in for the shared_ptr identity). The C++ sorts
candidates by descending score with std::sort and takes the front; among
equal scores the order is unspecified, and the first maximum is the
representative chosen here. -/
def argmaxBy (f : DLSMessage → ℚ) (l : List (Nat × DLSMessage)) :
    Option (Nat × DLSMessage) :=
  l.foldl (fun acc p =>
    match acc with
    | none => some p
    | some b => if f b.2 < f p.2 then some p else acc) none

/-- GetNextMessage (src/smart_dls.cpp lines 82-190): cleanup, scan of the
heap in pop order with the Thai-preference mutation applied to every popped
message, candidate filter, optional custom scoring, then last_sent and
send_count update on the returned message, in place in the heap (the C++
mutates through the selected shared_ptr; here through its position).
Returns the new state and the selected message. -/
def GetNextMessage (st : SmartDLSQueue) (c : SelectionCriteria) (now : Int) :
    SmartDLSQueue × Option DLSMessage :=
  let st1 := CleanupExpiredMessages st now
  if st1.queue.isEmpty then (st1, none)
  else
    let scanned := st1.queue.map (thaiAdjust c)
    let candidates := scanned.enum.filter (fun p => meetsCriteria c now p.2)
    let selOpt := match c.scoring with
      | some f => argmaxBy f candidates
      | none => candidates.head?
    match selOpt with
    | none => ({ st1 with queue := scanned }, none)
    | some p =>
      let sel' := updateSent now p.2
      ({ st1 with queue := scanned.set p.1 sel' }, some sel')

/-- AddMessage (src/smart_dls.cpp lines 43-80): reject empty text, reject a
duplicate inside the one-hour dedup window, default created_at to now when
unset (zero) and expires_at to created_at plus 24 hours when unset, then
push to the heap and record index and hash entries. Returns the stored
message on acceptance (the C++ returns true). -/
def AddMessage (st : SmartDLSQueue) (m : DLSMessage) (now : Int) :
    SmartDLSQueue × Option DLSMessage :=
  if m.text.isEmpty then (st, none)
  else
    let h := m.text
    let m0 := { m with contentHash := h }
    let dup := match st.hashes.lookup h with
      | some t0 => decide (now - t0 < 3600)
      | none => false
    if dup then (st, none)
    else
      let created := if m0.createdAt = 0 then now else m0.createdAt
      let m1 := { m0 with createdAt := created }
      let m2 := if m1.expiresAt = 0 then { m1 with expiresAt := created + 86400 } else m1
      ({ queue := st.queue ++ [m2],
         index := (m2.sourceId, m2) :: st.index.filter (fun e => !(e.1 = m2.sourceId : Bool)),
         hashes := (m2.contentHash, created) :: st.hashes.filter (fun e => !(e.1 = m2.contentHash : Bool)) },
       some m2)

/-- Fields of a message other than last_sent and send_count, used to state
frame conditions: two messages agree on stripSent iff they differ at most in
last_sent and send_count. -/
def stripSent (m : DLSMessage) : DLSMessage := { m with lastSent := 0, sendCount := 0 }

theorem mem_of_head?_eq {l : List α} {a : α} (h : l.head? = some a) : a ∈ l := by
  cases l with
  | nil => simp at h
  | cons x t =>
    simp only [List.head?_cons, Option.some.injEq] at h
    exact h ▸ List.mem_cons_self _ _

theorem argmaxBy_aux (f : DLSMessage → ℚ) :
    ∀ (l : List (Nat × DLSMessage)) (acc : Option (Nat × DLSMessage))
      (p : Nat × DLSMessage),
      List.foldl (fun acc q =>
        match acc with
        | none => some q
        | some b => if f b.2 < f q.2 then some q else acc) acc l = some p →
      acc = some p ∨ p ∈ l := by
  intro l
  induction l with
  | nil => intro acc p h; exact Or.inl h
  | cons x t ih =>
    intro acc p h
    rw [List.foldl_cons] at h
    rcases ih _ p h with hstep | hmem
    · cases acc with
      | none =>
        dsimp only at hstep
        cases hstep
        exact Or.inr (List.mem_cons_self _ _)
      | some b =>
        dsimp only at hstep
        by_cases hlt : f b.2 < f x.2
        · rw [if_pos hlt] at hstep
          cases hstep
          exact Or.inr (List.mem_cons_self _ _)
        · rw [if_neg hlt] at hstep
          exact Or.inl hstep
    · exact Or.inr (List.mem_cons_of_mem _ hmem)

theorem argmaxBy_mem {f : DLSMessage → ℚ} {l : List (Nat × DLSMessage)}
    {p : Nat × DLSMessage} (h : argmaxBy f l = some p) : p ∈ l := by
  rcases argmaxBy_aux f l none p h with h' | h'
  · exact Option.noConfusion h'
  · exact h'

theorem forall₂_set {S : α → α → Prop} (hrefl : ∀ a, S a a) :
    ∀ (l : List α) (i : Nat) (x y : α), l[i]? = some x → S y x →
      List.Forall₂ S (l.set i y) l := by
  intro l
  induction l with
  | nil => intro i x y h _; simp at h
  | cons a t ih =>
    intro i x y h hy
    cases i with
    | zero =>
      simp only [List.getElem?_cons_zero, Option.some.injEq] at h
      subst h
      exact List.Forall₂.cons hy (List.forall₂_same.mpr fun b _ => hrefl b)
    | succ n =>
      simp only [List.getElem?_cons_succ] at h
      exact List.Forall₂.cons (hrefl a) (ih n x y h hy)

theorem getNext_queue_cases (st : SmartDLSQueue) (c : SelectionCriteria) (now : Int)
    (hthai : c.preferThaiContent = false) :
    ((GetNextMessage st c now).1.queue = st.queue ∧ (GetNextMessage st c now).2 = none) ∨
    (∃ i sel, st.queue[i]? = some sel ∧
      (GetNextMessage st c now).2 = some (updateSent now sel) ∧
      (GetNextMessage st c now).1.queue = st.queue.set i (updateSent now sel)) := by
  have hadj : st.queue.map (thaiAdjust c) = st.queue := by
    have h1 : ∀ m ∈ st.queue, thaiAdjust c m = id m := by
      intro m _
      simp [thaiAdjust, hthai]
    rw [List.map_congr_left h1, List.map_id]
  unfold GetNextMessage
  simp only [show (CleanupExpiredMessages st now).queue = st.queue from rfl, hadj]
  cases he : st.queue.isEmpty
  · simp only [Bool.false_eq_true, if_false]
    split
    · exact Or.inl ⟨rfl, rfl⟩
    · next p heq =>
      refine Or.inr ⟨p.1, p.2, ?_, rfl, rfl⟩
      have hmem : p ∈ st.queue.enum.filter (fun q => meetsCriteria c now q.2) := by
        cases hs : c.scoring with
        | none => rw [hs] at heq; exact mem_of_head?_eq heq
        | some f => rw [hs] at heq; exact argmaxBy_mem heq
      exact List.mem_enum_iff_getElem?.mp (List.mem_of_mem_filter hmem)
  · exact Or.inl ⟨rfl, rfl⟩

/-- C5 (amended): with the prefer-thai flag clear, select mutates only the
last-sent and send-count fields, and only of the caption it returns; every
other caption in the queue is returned unchanged. (With prefer-thai set the
claim fails: see the counterexample.) -/
theorem C5_select_frame (st : SmartDLSQueue) (c : SelectionCriteria) (now : Int)
    (hthai : c.preferThaiContent = false) :
    List.Forall₂
      (fun y x => y = x ∨
        (stripSent y = stripSent x ∧ (GetNextMessage st c now).2 = some y))
      (GetNextMessage st c now).1.queue st.queue := by
  rcases getNext_queue_cases st c now hthai with ⟨hq, _⟩ | ⟨i, sel, hget, h2, hq⟩
  · rw [hq]
    exact List.forall₂_same.mpr (fun x _ => Or.inl rfl)
  · rw [hq]
    exact forall₂_set
      (S := fun y x => y = x ∨
        (stripSent y = stripSent x ∧ (GetNextMessage st c now).2 = some y))
      (fun a => Or.inl rfl) st.queue i sel (updateSent now sel) hget
      (Or.inr ⟨rfl, h2⟩)

/-- Concrete Thai message (ก, UTF-8 E0 B8 81) used by claims C5. -/
def mThai5 : DLSMessage :=
  { text := [0xE0, 0xB8, 0x81], createdAt := 900, expiresAt := 99999,
    isThaiContent := true }

/-- Concrete non-Thai message used by claim C5. -/
def mEng5 : DLSMessage :=
  { text := [97], createdAt := 900, expiresAt := 99999, sourceId := [50] }

/-- Permissive criteria with the prefer-thai flag set (claim C5). -/
def crit5 : SelectionCriteria :=
  { minPriority := 0, maxPriority := 4, preferThaiContent := true }

/-- Queue holding the Thai and the non-Thai message (claim C5). -/
def st5 : SmartDLSQueue := { queue := [mThai5, mEng5] }

/-- C5 counterexample: with prefer-thai set, select at time 1000 returns the
Thai caption, yet the importance score of the other (non-returned, non-Thai)
caption in the queue is multiplied by 0.8 (from 1/2 to 2/5) — so select does
not mutate only the last-sent/send-count of the returned caption. -/
theorem C5_counterexample :
    (GetNextMessage st5 crit5 1000).2 = some (updateSent 1000 mThai5) ∧
    (GetNextMessage st5 crit5 1000).1.queue[1]? =
      some { mEng5 with importanceScore := 2/5 } ∧
    mEng5.importanceScore = 1/2 ∧ ((2 : ℚ)/5) ≠ 1/2 := by
  refine ⟨rfl, ?_, rfl, by norm_num⟩
  have h : mEng5.importanceScore * (4/5) = (2 : ℚ)/5 := by
    norm_num [mEng5]
  calc (GetNextMessage st5 crit5 1000).1.queue[1]?
      = some { mEng5 with importanceScore := mEng5.importanceScore * (4/5) } := rfl
    _ = some { mEng5 with importanceScore := 2/5 } := by rw [h]

/-- Witness for C5 at a concrete queue with the prefer-thai flag clear. -/
theorem C5_select_frame_witness :
    ({ crit5 with preferThaiContent := false } : SelectionCriteria).preferThaiContent = false ∧
    List.Forall₂
      (fun y x => y = x ∨
        (stripSent y = stripSent x ∧
          (GetNextMessage st5 { crit5 with preferThaiContent := false } 1000).2 = some y))
      (GetNextMessage st5 { crit5 with preferThaiContent := false } 1000).1.queue st5.queue :=
  ⟨rfl, C5_select_frame st5 { crit5 with preferThaiContent := false } 1000 rfl⟩

/-- Message whose expiry lies in the past at select time 1000 (claim C4). -/
def m4 : DLSMessage :=
  { text := [72, 105], createdAt := 900, expiresAt := 950,
    sourceId := [101], contentHash := [72, 105] }

/-- Queue state holding only the expired message, with its index and dedup
entries (claim C4). -/
def st4 : SmartDLSQueue :=
  { queue := [m4], index := [([101], m4)], hashes := [([72, 105], 900)] }

/-- Permissive criteria (claim C4). -/
def crit4 : SelectionCriteria := { minPriority := 0, maxPriority := 4 }

/-- C4: at time 1000 the message is expired (950 < 1000); the sweep removes
it from the index and the dedup map but not from the priority queue, and
select then returns that expired caption — the last conjunct evaluates the
code at the failing input of the code_bug record. -/
theorem C4_expired_caption_returned :
    m4.expiresAt < 1000 ∧
    (CleanupExpiredMessages st4 1000).index = [] ∧
    (CleanupExpiredMessages st4 1000).hashes = [] ∧
    (CleanupExpiredMessages st4 1000).queue = [m4] ∧
    (GetNextMessage st4 crit4 1000).2 = some (updateSent 1000 m4) :=
  ⟨by decide, rfl, rfl, rfl, rfl⟩

/-- UTF-8 encoding of a scalar value (up to U+FFFF), mirroring the
std::codecvt_utf8_utf16 conversion the source performs between its UTF-8
strings and UTF-16 code units. -/
def utf8EncodeChar (c : Nat) : List Nat :=
  if c < 0x80 then [c]
  else if c < 0x800 then [0xC0 + c / 0x40, 0x80 + c % 0x40]
  else [0xE0 + c / 0x1000, 0x80 + (c / 0x40) % 0x40, 0x80 + c % 0x40]

/-- UTF-8 encoding of a code-point sequence. -/
def utf8Encode (s : List Nat) : List Nat := (s.map utf8EncodeChar).flatten

/-- Thai message กก: two code points U+0E01, six UTF-8 bytes (claim C6). -/
def mThai6 : DLSMessage :=
  { text := [0xE0, 0xB8, 0x81, 0xE0, 0xB8, 0x81], createdAt := 900,
    expiresAt := 99999, isThaiContent := true }

/-- Criteria with max_text_length 3 (claim C6). -/
def crit6 : SelectionCriteria := { minPriority := 0, maxPriority := 4, maxTextLength := 3 }

/-- Queue holding only the Thai message (claim C6). -/
def st6 : SmartDLSQueue := { queue := [mThai6] }

/-- C6 counterexample: the Thai caption กก has DAB-encoded length 3 (tag plus
two bytes), within the limit 3, yet the gate rejects it because its UTF-8
byte length 6 exceeds the limit — select returns nothing. -/
theorem C6_counterexample :
    mThai6.text = utf8Encode [0x0E01, 0x0E01] ∧
    (ConvertUTF8ToDAB [0x0E01, 0x0E01]).length ≤ crit6.maxTextLength ∧
    meetsCriteria crit6 1000 mThai6 = false ∧
    (GetNextMessage st6 crit6 1000).2 = none :=
  ⟨rfl, by decide, by decide, rfl⟩

/-- C6 (amended): the eligibility gate compares the UTF-8 byte length of the
stored text against max_text_length, so any caption whose UTF-8 length
exceeds the limit is ineligible — even the Thai caption whose DAB-encoded
length is within the limit. -/
theorem C6_text_length_gate :
    (∀ (c : SelectionCriteria) (now : Int) (m : DLSMessage),
      m.text.length > c.maxTextLength → meetsCriteria c now m = false) ∧
    (mThai6.text = utf8Encode [0x0E01, 0x0E01] ∧
     (ConvertUTF8ToDAB [0x0E01, 0x0E01]).length ≤ crit6.maxTextLength ∧
     mThai6.text.length > crit6.maxTextLength ∧
     meetsCriteria crit6 1000 mThai6 = false) := by
  constructor
  · intro c now m h
    simp [meetsCriteria, h]
  · exact ⟨by decide, by decide, by decide, by decide⟩

/-- Witness for C6 applying the gate lemma at the concrete Thai caption. -/
theorem C6_text_length_gate_witness :
    mThai6.text.length > crit6.maxTextLength ∧
    meetsCriteria crit6 1000 mThai6 = false :=
  ⟨by decide, C6_text_length_gate.1 crit6 1000 mThai6 (by decide)⟩

/-- Empty queue state (claim C10). -/
def emptyDLSQueue : SmartDLSQueue := {}

/-- Message with created-at unset (epoch zero) but expires-at already set to
a past instant (claim C10). -/
def m10 : DLSMessage := { text := [97], createdAt := 0, expiresAt := 5 }

/-- The caption as stored by submit at time 1000: created-at defaulted to
the submission time, expires-at left untouched (claim C10). -/
def m10stored : DLSMessage :=
  { text := [97], createdAt := 1000, expiresAt := 5, contentHash := [97] }

/-- C10 counterexample: a message with created-at unset but expires-at set
is accepted, its created-at becomes the submission time, but expires-at is
not rewritten to created-at plus 24 hours — and the stored caption violates
created-at less-or-equal expires-at. -/
theorem C10_counterexample :
    (AddMessage emptyDLSQueue m10 1000).2 = some m10stored ∧
    m10.createdAt = 0 ∧ m10.expiresAt ≠ 0 ∧
    ¬(m10stored.createdAt ≤ m10stored.expiresAt) ∧
    m10stored.expiresAt ≠ m10stored.createdAt + 86400 :=
  ⟨rfl, rfl, by decide, by decide, by decide⟩

/-- C10 (amended): on every accepted submission, created-at is defaulted to
the submission time exactly when it was unset, expires-at is defaulted to
created-at plus 24 hours exactly when it was unset, and every caption
submitted with expires-at unset satisfies created-at less-or-equal
expires-at; the stored caption is appended to the queue. -/
theorem C10_default_timestamps (st : SmartDLSQueue) (m : DLSMessage) (now : Int)
    (m' : DLSMessage) (h : (AddMessage st m now).2 = some m') :
    (m.createdAt = 0 → m'.createdAt = now) ∧
    (m.createdAt ≠ 0 → m'.createdAt = m.createdAt) ∧
    (m.expiresAt = 0 → m'.expiresAt = m'.createdAt + 86400) ∧
    (m.expiresAt ≠ 0 → m'.expiresAt = m.expiresAt) ∧
    (m.expiresAt = 0 → m'.createdAt ≤ m'.expiresAt) ∧
    (AddMessage st m now).1.queue = st.queue ++ [m'] := by
  simp only [AddMessage] at h ⊢
  by_cases ht : m.text.isEmpty
  · simp [ht] at h
  · simp only [ht, Bool.false_eq_true, if_false] at h ⊢
    by_cases hd : (match List.lookup m.text st.hashes with
        | some t0 => decide (now - t0 < 3600)
        | none => false) = true
    · rw [if_pos hd] at h
      exact absurd h (by simp)
    · rw [if_neg hd] at h ⊢
      simp only [Option.some.injEq] at h
      subst h
      refine ⟨?_, ?_, ?_, ?_, ?_, rfl⟩
      · intro h0
        by_cases he : m.expiresAt = 0 <;> simp [h0, he]
      · intro h0
        by_cases he : m.expiresAt = 0 <;> simp [h0, he]
      · intro h0
        simp [h0]
      · intro h0
        simp [h0]
      · intro h0
        by_cases hc : m.createdAt = 0 <;> simp [h0, hc]

/-- Message with both timestamps unset, used by the C10 witness. -/
def w10 : DLSMessage := { text := [97] }

/-- The caption stored for w10 at submission time 1000. -/
def w10stored : DLSMessage :=
  { text := [97], contentHash := [97], createdAt := 1000, expiresAt := 1000 + 86400 }

/-- Witness for C10 at a message with expires-at unset. -/
theorem C10_default_timestamps_witness :
    (AddMessage emptyDLSQueue w10 1000).2 = some w10stored ∧
    w10.expiresAt = 0 ∧
    w10stored.createdAt ≤ w10stored.expiresAt :=
  ⟨rfl, rfl,
   (C10_default_timestamps emptyDLSQueue w10 1000 w10stored rfl).2.2.2.2.1 rfl⟩

/-! ## DLS formatting and truncation
Embedding of ThaiLanguageProcessor::FormatTextForDLS
(src/thai_rendering.cpp lines 312-344) and
MessageLengthOptimizer::SmartTruncate (src/smart_dls.cpp lines 405-428),
on UTF-8 byte lists. The C++ compares break_pos against
max_length * 0.8 and max_length * 0.7 in double arithmetic; the double
literals 0.8 and 0.7 are exactly 3602879701896397 / 2^52 and
3152519739159347 / 2^52, and the comparisons below are the same
comparisons scaled by 2^52 (for every budget far below 2^52 the rounding
of the product cannot cross an integer, so this is exact). -/

/-- Whitespace class of the ECMAScript regex \s on bytes. -/
def isWsByte (b : Nat) : Bool :=
  b = 32 || b = 9 || b = 10 || b = 11 || b = 12 || b = 13

/-- Collapse adjacent space bytes into one (second phase of replacing every
whitespace run by a single space). -/
def squeezeSpaces : List Nat → List Nat
  | [] => []
  | [a] => [a]
  | a :: b :: rest =>
    if a = 32 && b = 32 then squeezeSpaces (b :: rest)
    else a :: squeezeSpaces (b :: rest)

/-- regex_replace of \s+ by a single space: every maximal whitespace run
becomes one space byte. -/
def collapseWhitespace (t : List Nat) : List Nat :=
  squeezeSpaces (t.map (fun b => if isWsByte b then 32 else b))

/-- Trim set " \t\n\r" used by the erase calls. -/
def isTrimByte (b : Nat) : Bool := b = 32 || b = 9 || b = 10 || b = 13

/-- Erase leading and trailing trim bytes. -/
def trimBytes (t : List Nat) : List Nat :=
  ((t.dropWhile isTrimByte).reverse.dropWhile isTrimByte).reverse

/-- Exact mantissa of the double literal 0.8 (times 2^52). -/
def d08num : Nat := 3602879701896397

/-- Exact mantissa of the double literal 0.7 (times 2^52). -/
def d07num : Nat := 3152519739159347

/-- 2^52, the scaling of the two mantissas. -/
def pow52 : Nat := 4503599627370496

/-- Boundary test of the FormatTextForDLS truncation loop: a space or any
ASCII byte (the C++ tests c == ' ' or (c & 0x80) == 0). -/
def isFormatBoundary (b : Nat) : Bool := b = 32 || b < 0x80

/-- Truncation loop of FormatTextForDLS: from break_pos = max_length,
while break_pos > max_length * 0.8, stop at a boundary byte, else
decrement. -/
def formatBreakLoop (t : List Nat) (m : Nat) : Nat → Nat
  | 0 => 0
  | bp + 1 =>
    if (bp + 1) * pow52 > m * d08num then
      if isFormatBoundary (t.getD (bp + 1) 0) then bp + 1
      else formatBreakLoop t m bp
    else bp + 1

/-- FormatTextForDLS: collapse whitespace runs, trim, and if the result is
longer than the budget, truncate at the loop position and append "..."
whenever the cut is before the end of the original input. -/
def FormatTextForDLS (input : List Nat) (maxLength : Nat) : List Nat :=
  let out0 := trimBytes (collapseWhitespace input)
  if out0.length > maxLength then
    let bp := formatBreakLoop out0 maxLength maxLength
    let out1 := out0.take bp
    if bp < input.length then out1 ++ [46, 46, 46] else out1
  else out0

/-- Boundary test of SmartTruncate: space, comma, period, bang or question
mark. -/
def isTruncBoundary (b : Nat) : Bool :=
  b = 32 || b = 44 || b = 46 || b = 33 || b = 63

/-- Truncation loop of SmartTruncate: from break_pos = max_length - 3,
while break_pos > max_length * 0.7 and break_pos > 0, stop at a word
boundary, else decrement. -/
def truncBreakLoop (t : List Nat) (m : Nat) : Nat → Nat
  | 0 => 0
  | bp + 1 =>
    if (bp + 1) * pow52 > m * d07num then
      if isTruncBoundary (t.getD (bp + 1) 0) then bp + 1
      else truncBreakLoop t m bp
    else bp + 1

/-- SmartTruncate (src/smart_dls.cpp lines 405-428). The C++ computes
max_length - 3 in size_t, which wraps for max_length < 3 and then indexes
out of range (undefined); Nat subtraction stands in, and the theorem below
assumes 3 <= max_length. -/
def SmartTruncate (t : List Nat) (maxLength : Nat) : List Nat :=
  if t.length ≤ maxLength then t
  else
    let bp := truncBreakLoop t maxLength (maxLength - 3)
    let r := t.take bp
    if bp < t.length then r ++ [46, 46, 46] else r

theorem formatBreakLoop_le (t : List Nat) (m : Nat) :
    ∀ bp, formatBreakLoop t m bp ≤ bp := by
  intro bp
  induction bp with
  | zero => exact Nat.le_refl 0
  | succ n ih =>
    unfold formatBreakLoop
    split
    · split
      · exact Nat.le_refl _
      · exact Nat.le_succ_of_le ih
    · exact Nat.le_refl _

theorem truncBreakLoop_le (t : List Nat) (m : Nat) :
    ∀ bp, truncBreakLoop t m bp ≤ bp := by
  intro bp
  induction bp with
  | zero => exact Nat.le_refl 0
  | succ n ih =>
    unfold truncBreakLoop
    split
    · split
      · exact Nat.le_refl _
      · exact Nat.le_succ_of_le ih
    · exact Nat.le_refl _

/-- C3 counterexample: on the five-byte input "aaaaa" with budget 4 the
formatter cuts at position 4 (an ASCII byte, inside the window
(0.8*4, 4]) and appends "...", producing seven bytes — more than the
budget, refuting "the formatter's output never exceeds the budget" and the
window [0.7*budget, budget-3]. -/
theorem C3_counterexample :
    FormatTextForDLS [97, 97, 97, 97, 97] 4 = [97, 97, 97, 97, 46, 46, 46] ∧
    (FormatTextForDLS [97, 97, 97, 97, 97] 4).length > 4 :=
  ⟨rfl, by decide⟩

/-- C3 (amended): the formatter collapses whitespace runs and trims; when
the result exceeds the budget, FormatTextForDLS cuts within
(0.8*budget, budget] at a space-or-ASCII byte and appends "..." after the
cut, so its output can exceed the budget by up to three bytes but never
more; an already-normalized input of exactly the budget length is returned
unchanged; SmartTruncate (the optimizer) cuts within
(0.7*budget, budget-3] and its output never exceeds the budget. -/
theorem C3_formatting_bounds :
    (∀ t m, (FormatTextForDLS t m).length ≤ m + 3) ∧
    (∀ t m, trimBytes (collapseWhitespace t) = t → t.length = m →
      FormatTextForDLS t m = t) ∧
    (∀ t m, 3 ≤ m → (SmartTruncate t m).length ≤ m) := by
  refine ⟨?_, ?_, ?_⟩
  · intro t m
    unfold FormatTextForDLS
    by_cases h : (trimBytes (collapseWhitespace t)).length > m
    · rw [if_pos h]
      have hbp := formatBreakLoop_le (trimBytes (collapseWhitespace t)) m m
      by_cases h2 : formatBreakLoop (trimBytes (collapseWhitespace t)) m m < t.length
      · rw [if_pos h2]
        simp only [List.length_append, List.length_take, List.length_cons,
          List.length_nil]
        omega
      · rw [if_neg h2]
        simp only [List.length_take]
        omega
    · rw [if_neg h]
      omega
  · intro t m hnorm hlen
    unfold FormatTextForDLS
    rw [hnorm]
    rw [if_neg (by omega)]
  · intro t m h3
    unfold SmartTruncate
    by_cases h : t.length ≤ m
    · rw [if_pos h]
      exact h
    · rw [if_neg h]
      have hbp := truncBreakLoop_le t m (m - 3)
      by_cases h2 : truncBreakLoop t m (m - 3) < t.length
      · rw [if_pos h2]
        simp only [List.length_append, List.length_take, List.length_cons,
          List.length_nil]
        omega
      · rw [if_neg h2]
        simp only [List.length_take]
        omega

/-- Witness for C3 at concrete inputs: bound of the formatter on "aaaaa"
with budget 4, identity on the normalized exact-budget input "aaa" with
budget 3, and the SmartTruncate bound on ten bytes with budget 5. -/
theorem C3_formatting_bounds_witness :
    (FormatTextForDLS [97, 97, 97, 97, 97] 4).length ≤ 4 + 3 ∧
    (trimBytes (collapseWhitespace [97, 97, 97]) = [97, 97, 97] ∧
      FormatTextForDLS [97, 97, 97] 3 = [97, 97, 97]) ∧
    (3 ≤ 5 ∧
      (SmartTruncate [97, 97, 97, 97, 97, 97, 97, 97, 97, 97] 5).length ≤ 5) :=
  ⟨C3_formatting_bounds.1 [97, 97, 97, 97, 97] 4,
   ⟨by decide, C3_formatting_bounds.2.1 [97, 97, 97] 3 (by decide) (by decide)⟩,
   ⟨by decide, C3_formatting_bounds.2.2 [97, 97, 97, 97, 97, 97, 97, 97, 97, 97] 5 (by decide)⟩⟩

/-! ## Slide transcoding quality ladder
Embedding of ImageOptimizer::OptimizeForDAB (src/enhanced_mot.cpp lines
613-648). The ImageMagick re-encode is outside the embedding: the byte
count of the re-encoded image at each quality level enters as a function
from quality to size. The for-loop (quality = 95; quality >= 50;
quality -= 10) visits a fixed sequence of quality values; the generator
below reproduces that loop, with a fuel bound (ten) strictly larger than
the number of iterations the loop can make from 95. -/

/-- Quality values visited by the transcode loop, generated exactly as the
loop steps: start value, while 50 <= q, step q - 10. -/
def qualityLadderAux : Nat → Nat → List Nat
  | 0, _ => []
  | fuel + 1, q => if 50 ≤ q then q :: qualityLadderAux fuel (q - 10) else []

/-- The visited quality sequence from the loop start 95. -/
def qualityLadder : List Nat := qualityLadderAux 10 95

/-- OptimizeForDAB keeps the first visited quality whose re-encoded size
fits the byte budget; if none fits it fails (the C++ returns false). -/
def OptimizeForDAB (size : Nat → Nat) (maxSize : Nat) : Option Nat :=
  qualityLadder.find? (fun q => decide (size q ≤ maxSize))

/-- C7 counterexample: an image whose re-encode fits the budget only at
quality 50 is rejected, because the loop never visits 50 (95, 85, 75, 65,
55, then 45 fails the loop condition) — refuting the claimed level set
{95, 85, 75, 65, 55, 50}. -/
theorem C7_counterexample :
    OptimizeForDAB (fun q => if q = 50 then 10 else 100) 10 = none ∧
    (fun q => if q = 50 then 10 else 100) 50 ≤ 10 ∧
    (50 : Nat) ∉ qualityLadder :=
  ⟨rfl, by decide, by decide⟩

/-- C7 (amended): per-slide transcoding tries the quality levels 95, 85,
75, 65, 55 in that order (50 is never reached by the loop), keeps the
first level whose result fits the byte budget, and fails — so the ingest is
rejected rather than stored — exactly when no visited level fits. -/
theorem C7_quality_ladder :
    qualityLadder = [95, 85, 75, 65, 55] ∧
    (∀ size maxSize q, OptimizeForDAB size maxSize = some q →
      q ∈ qualityLadder ∧ size q ≤ maxSize) ∧
    (∀ size maxSize, OptimizeForDAB size maxSize = none ↔
      ∀ q ∈ qualityLadder, maxSize < size q) := by
  refine ⟨by decide, ?_, ?_⟩
  · intro size maxSize q h
    refine ⟨List.mem_of_find?_eq_some h, ?_⟩
    have := List.find?_some h
    simpa using this
  · intro size maxSize
    rw [OptimizeForDAB, List.find?_eq_none]
    simp [Nat.not_le]

/-- Witness for C7: a slide fitting at every level is kept at quality 95. -/
theorem C7_quality_ladder_witness :
    OptimizeForDAB (fun _ => 5) 10 = some 95 ∧
    (95 ∈ qualityLadder ∧ (fun _ => (5 : Nat)) 95 ≤ 10) :=
  ⟨rfl, C7_quality_ladder.2.1 (fun _ => 5) 10 95 rfl⟩

/-! ## Secure path validation
Embedding of SecurePathValidator (src/security_utils.cpp lines 23-188) on
byte lists. ValidatePath is split at its filesystem access: the security
gate (lines 96-116) either rejects with the first matching reason or hands
the sanitized path to the existence/type checks (lines 118-148), which the
checkFilesystem verdict stands for. -/

/-- Byte-wise tolower of the C locale. -/
def asciiToLower (b : Nat) : Nat := if 65 ≤ b ∧ b ≤ 90 then b + 32 else b

/-- Replace a backslash byte by a forward slash. -/
def backToSlash (b : Nat) : Nat := if b = 92 then 47 else b

/-- Collapse adjacent slash bytes into one (the regex_replace loop on
"//+"). -/
def squeezeSlashes : List Nat → List Nat
  | [] => []
  | [a] => [a]
  | a :: b :: rest =>
    if a = 47 && b = 47 then squeezeSlashes (b :: rest)
    else a :: squeezeSlashes (b :: rest)

/-- NormalizePath (lines 173-188): lowercase, backslash to slash, collapse
double slashes. -/
def NormalizePath (p : List Nat) : List Nat :=
  squeezeSlashes ((p.map asciiToLower).map backToSlash)

/-- SanitizePath (lines 151-171): remove NUL bytes, backslash to slash,
collapse double slashes, drop a trailing slash except for the root. -/
def SanitizePath (p : List Nat) : List Nat :=
  let s2 := squeezeSlashes ((p.filter (fun b => !(b = 0 : Bool))).map backToSlash)
  if s2.length > 1 ∧ s2.getLast? = some 47 then s2.dropLast else s2

/-- ContainsTraversal (lines 41-53): the literal byte patterns "..", "~",
"//", "%2e%2e", "%2f", "%5c". -/
def ContainsTraversal (p : List Nat) : Bool :=
  decide ([46, 46] <:+: p) || decide ([126] <:+: p) || decide ([47, 47] <:+: p) ||
  decide ([37, 50, 101, 37, 50, 101] <:+: p) ||
  decide ([37, 50, 102] <:+: p) ||
  decide ([37, 53, 99] <:+: p)

/-- The blocked_patterns_ list of the constructor (lines 25-29); the
C++ string "\\x" is the two bytes backslash x, and so on. -/
def blockedPatterns : List (List Nat) :=
  [[46, 46], [126], [36], [96], [124], [38], [59],
   [60], [62], [34], [39], [92, 120], [92, 117],
   [92, 114], [92, 110], [92, 116], [92, 48]]

/-- MatchesBlockedPattern (lines 78-85). -/
def MatchesBlockedPattern (p : List Nat) : Bool :=
  blockedPatterns.any (fun pat => decide (pat <:+: p))

/-- Configuration of the validator: allow-listed roots and strict mode. -/
structure PathConfig where
  allowedDirectories : List (List Nat)
  strictMode : Bool

/-- IsInAllowedDirectory (lines 55-76): with no configured roots, allow
exactly when not strict; otherwise some normalized root must be a leading
segment of the normalized path ending at a directory boundary (equal
length or a slash at the boundary position). -/
def IsInAllowedDirectory (cfg : PathConfig) (p : List Nat) : Bool :=
  if cfg.allowedDirectories.isEmpty then !cfg.strictMode
  else
    let np := NormalizePath p
    cfg.allowedDirectories.any (fun dir =>
      let na := NormalizePath dir
      decide (np.take na.length = na) &&
      (decide (np.length = na.length) || np.getD na.length 0 == 47))

/-- Outcome of the security gate of ValidatePath. -/
inductive PathVerdict
  | rejectedTraversal
  | rejectedBlocked
  | rejectedNotAllowed
  | checkFilesystem (sanitized : List Nat)
deriving DecidableEq

/-- Security gate of ValidatePath (lines 96-116), in source order:
traversal check on the raw path, blocked-pattern check, allowed-directory
check; survivors continue to the filesystem stage with the sanitized
path (and is_valid is set there only if that path exists). -/
def ValidatePath (cfg : PathConfig) (p : List Nat) : PathVerdict :=
  if ContainsTraversal p then .rejectedTraversal
  else if MatchesBlockedPattern p then .rejectedBlocked
  else if !IsInAllowedDirectory cfg p then .rejectedNotAllowed
  else .checkFilesystem (SanitizePath p)

/-- Allow-root "/srv", strict mode (claim C9). -/
def srvCfg : PathConfig := { allowedDirectories := [[47, 115, 114, 118]], strictMode := true }

/-- The path "/srv/a<NUL>b" (claim C9). -/
def srvNulPath : List Nat := [47, 115, 114, 118, 47, 97, 0, 98]

/-- The path "foo/../bar" (claim C9). -/
def fooDotDotBar : List Nat := [102, 111, 111, 47, 46, 46, 47, 98, 97, 114]

/-- The sibling path "/srvx/a" sharing the root's name as a leading byte run
(claim C9). -/
def srvSibling : List Nat := [47, 115, 114, 118, 120, 47, 97]

/-- C9 counterexample: a path containing a NUL byte raises no security
issue — the gate hands it on to the filesystem stage with the NUL silently
stripped — refuting "the validator rejects every path that contains a NUL
byte". -/
theorem C9_counterexample :
    (0 : Nat) ∈ srvNulPath ∧
    ValidatePath srvCfg srvNulPath =
      .checkFilesystem [47, 115, 114, 118, 47, 97, 98] :=
  ⟨by decide, rfl⟩

theorem squeezeSlashes_subset :
    ∀ (l : List Nat), ∀ x ∈ squeezeSlashes l, x ∈ l := by
  intro l
  induction l using squeezeSlashes.induct with
  | case1 => intro x hx; exact absurd hx (by simp [squeezeSlashes])
  | case2 a =>
    intro x hx
    simpa [squeezeSlashes] using hx
  | case3 a b rest hab ih =>
    intro x hx
    rw [squeezeSlashes, if_pos hab] at hx
    exact List.mem_cons_of_mem _ (ih x hx)
  | case4 a b rest hab ih =>
    intro x hx
    rw [squeezeSlashes, if_neg hab] at hx
    rcases List.mem_cons.mp hx with rfl | hx'
    · exact List.mem_cons_self _ _
    · exact List.mem_cons_of_mem _ (ih x hx')

theorem sanitizePath_no_nul (p : List Nat) : (0 : Nat) ∉ SanitizePath p := by
  intro hmem
  unfold SanitizePath at hmem
  have hmem2 : (0 : Nat) ∈
      squeezeSlashes ((p.filter (fun b => !(b = 0 : Bool))).map backToSlash) := by
    by_cases hc : (squeezeSlashes ((p.filter (fun b => !(b = 0 : Bool))).map backToSlash)).length > 1 ∧
        (squeezeSlashes ((p.filter (fun b => !(b = 0 : Bool))).map backToSlash)).getLast? = some 47
    · rw [if_pos hc] at hmem
      exact List.dropLast_subset _ hmem
    · rwa [if_neg hc] at hmem
  have hmem3 := squeezeSlashes_subset _ _ hmem2
  rcases List.mem_map.mp hmem3 with ⟨b, hb, hb0⟩
  have hbne : ¬(b = 0) := by
    have := List.mem_filter.mp hb
    simpa using this.2
  unfold backToSlash at hb0
  by_cases h92 : b = 92
  · rw [if_pos h92] at hb0
    exact absurd hb0 (by decide)
  · rw [if_neg h92] at hb0
    exact hbne hb0

/-- C9 (amended): the validator rejects every path containing one of the
byte patterns "..", "~", "//", "%2e%2e", "%2f", "%5c"; any path that
reaches the filesystem stage passed the traversal, blocked-pattern and
allowed-directory checks and is handed on sanitized; "foo/../bar" is
rejected under allow-root "/srv"; the sibling "/srvx/a" that shares the
root's byte run without a directory boundary is rejected; but a NUL byte is
not a rejection cause — sanitization strips NUL bytes instead. -/
theorem C9_path_validation :
    (∀ cfg p, ContainsTraversal p = true → ValidatePath cfg p = .rejectedTraversal) ∧
    (∀ p, ContainsTraversal p =
      (decide ([46, 46] <:+: p) || decide ([126] <:+: p) || decide ([47, 47] <:+: p) ||
       decide ([37, 50, 101, 37, 50, 101] <:+: p) ||
       decide ([37, 50, 102] <:+: p) || decide ([37, 53, 99] <:+: p))) ∧
    (∀ cfg p s, ValidatePath cfg p = .checkFilesystem s →
      ContainsTraversal p = false ∧ MatchesBlockedPattern p = false ∧
      IsInAllowedDirectory cfg p = true ∧ s = SanitizePath p) ∧
    ValidatePath srvCfg fooDotDotBar = .rejectedTraversal ∧
    ValidatePath srvCfg srvSibling = .rejectedNotAllowed ∧
    (∀ p, (0 : Nat) ∉ SanitizePath p) := by
  refine ⟨?_, fun p => rfl, ?_, rfl, rfl, sanitizePath_no_nul⟩
  · intro cfg p h
    unfold ValidatePath
    rw [if_pos h]
  · intro cfg p s h
    unfold ValidatePath at h
    cases c1 : ContainsTraversal p with
    | true => rw [c1] at h; simp at h
    | false =>
      rw [c1] at h
      simp only [Bool.false_eq_true, if_false] at h
      cases c2 : MatchesBlockedPattern p with
      | true => rw [c2] at h; simp at h
      | false =>
        rw [c2] at h
        simp only [Bool.false_eq_true, if_false] at h
        cases c3 : IsInAllowedDirectory cfg p with
        | false => rw [c3] at h; simp at h
        | true =>
          rw [c3] at h
          simp only [Bool.not_true, Bool.false_eq_true, if_false] at h
          injection h with h4
          exact ⟨rfl, rfl, rfl, h4.symm⟩

/-- Witness for C9 applying the traversal-rejection part at "foo/../bar". -/
theorem C9_path_validation_witness :
    ContainsTraversal fooDotDotBar = true ∧
    ValidatePath srvCfg fooDotDotBar = .rejectedTraversal :=
  ⟨by decide, C9_path_validation.1 srvCfg fooDotDotBar (by decide)⟩

/-! ## Content scheduler and emergency override
Embedding of ContentScheduler (src/content_manager.cpp lines 55-237).
Only the fields read by the embedded functions appear in the records
(enum fields are their ordinals: ContentType MOT_SLIDESHOW = 0,
DLS_MESSAGE = 1, COMBINED = 2, EMERGENCY_ALERT = 3). metadata["quality"]
enters as an optional rational. The scheduling loop runs
ProcessScheduledContent once per second; a tick event is one such run. -/

/-- ScheduleWindow fields used by eligibility and scoring. -/
structure ScheduleWindow where
  startTime : Int := 0
  endTime : Int := 0
  maxRepeats : Int := 0
  currentRepeats : Int := 0
deriving DecidableEq

/-- ContentItem fields used by the scheduler. -/
structure ContentItem where
  itemId : List Nat := []
  type : Nat := 0
  priority : Int := 0
  schedule : ScheduleWindow := {}
  textContent : List Nat := []
  isActive : Bool := true
  isEmergency : Bool := false
  scheduleCount : Int := 0
  quality : Option ℚ := none
deriving DecidableEq

/-- ShouldScheduleContent (lines 125-141): inside the window and below the
repeat bound. -/
def ShouldScheduleContent (now : Int) (item : ContentItem) : Bool :=
  !(decide (now > item.schedule.endTime)) &&
  !(decide (now < item.schedule.startTime)) &&
  !(decide (item.schedule.maxRepeats > 0) &&
    decide (item.schedule.currentRepeats ≥ item.schedule.maxRepeats))

/-- CalculateSchedulingScore (lines 143-176): priority, remaining-window,
usage and quality components. Minute counts truncate toward zero as
duration_cast does. -/
def CalculateSchedulingScore (now : Int) (item : ContentItem) : ℚ :=
  let base := ((4 : ℚ) - (item.priority : ℚ)) * (4/10)
  let timeInWindow : Int := Int.tdiv (now - item.schedule.startTime) 60
  let windowDuration : Int := Int.tdiv (item.schedule.endTime - item.schedule.startTime) 60
  let s1 := base +
    (if windowDuration > 0 then
      max 0 (1 - (timeInWindow : ℚ) / (windowDuration : ℚ)) * (3/10)
    else 0)
  let s2 := s1 + (1 / (1 + (item.scheduleCount : ℚ) * (1/10))) * (2/10)
  s2 + (if item.type = 0 then
    (match item.quality with | some q => q * (1/10) | none => 0)
  else 0)

/-- First maximum of the scheduling score (std::sort descending plus front;
ties unspecified by the unstable sort, first maximum chosen here). -/
def contentArgmax (now : Int) (l : List ContentItem) : Option ContentItem :=
  l.foldl (fun acc m =>
    match acc with
    | none => some m
    | some b =>
      if CalculateSchedulingScore now b < CalculateSchedulingScore now m then some m
      else acc) none

/-- SelectNextDLSContent (lines 102-123): active DLS_MESSAGE or COMBINED
items that should be scheduled, best scheduling score first. -/
def SelectNextDLSContent (sched : List ContentItem) (now : Int) : Option ContentItem :=
  contentArgmax now (sched.filter (fun item =>
    item.isActive && (decide (item.type = 1) || decide (item.type = 2)) &&
    ShouldScheduleContent now item))

/-- SelectNextMOTContent (lines 79-100): active MOT_SLIDESHOW or COMBINED
items that should be scheduled, best scheduling score first. -/
def SelectNextMOTContent (sched : List ContentItem) (now : Int) : Option ContentItem :=
  contentArgmax now (sched.filter (fun item =>
    item.isActive && (decide (item.type = 0) || decide (item.type = 2)) &&
    ShouldScheduleContent now item))

/-- State of ContentScheduler: the scheduled table, the published current
pair, and the emergency override fields. -/
structure ContentScheduler where
  scheduledContent : List ContentItem := []
  currentMOT : Option ContentItem := none
  currentDLS : Option ContentItem := none
  emergencyOverride : Bool := false
  emergencyContent : Option ContentItem := none
  emergencyStart : Int := 0
  emergencyDuration : Int := 0

/-- ProcessScheduledContent (lines 55-77): while the emergency override is
set and within its duration, publish the emergency content as both current
slots and return; on expiry clear the override and fall through to regular
selection; otherwise regular selection. -/
def ProcessScheduledContent (st : ContentScheduler) (now : Int) : ContentScheduler :=
  if st.emergencyOverride && st.emergencyContent.isSome then
    if now - st.emergencyStart < st.emergencyDuration then
      { st with currentMOT := st.emergencyContent, currentDLS := st.emergencyContent }
    else
      { st with
        emergencyOverride := false, emergencyContent := none,
        currentMOT := SelectNextMOTContent st.scheduledContent now,
        currentDLS := SelectNextDLSContent st.scheduledContent now }
  else
    { st with
      currentMOT := SelectNextMOTContent st.scheduledContent now,
      currentDLS := SelectNextDLSContent st.scheduledContent now }

/-- TriggerEmergency (lines 218-228). -/
def TriggerEmergency (st : ContentScheduler) (m : ContentItem) (d : Int) (now : Int) :
    ContentScheduler :=
  { st with emergencyOverride := true, emergencyContent := some m,
            emergencyStart := now, emergencyDuration := d }

/-- ClearEmergency (lines 230-237). -/
def ClearEmergency (st : ContentScheduler) : ContentScheduler :=
  { st with emergencyOverride := false, emergencyContent := none }

/-- Run one scheduler tick per listed time, in order. -/
def runTicks (st : ContentScheduler) : List Int → ContentScheduler
  | [] => st
  | t :: ts => runTicks (ProcessScheduledContent st t) ts

/-- The snapshots published after each tick. -/
def tickStates (st : ContentScheduler) : List Int → List ContentScheduler
  | [] => []
  | t :: ts => ProcessScheduledContent st t :: tickStates (ProcessScheduledContent st t) ts

/-- A caption published before the emergency (claim C2). -/
def mOld : ContentItem := { textContent := [79, 108, 100] }

/-- The emergency content item (claim C2). -/
def mEmg : ContentItem := { textContent := [84, 115, 117], type := 3, isEmergency := true }

/-- Scheduler state publishing the old caption (claim C2). -/
def s2pre : ContentScheduler := { currentDLS := some mOld }

/-- C2 counterexample: immediately after trigger_emergency returns — before
the next scheduler tick — the override flag is already set, but the
published current caption is still the pre-emergency one, refuting "from
the moment trigger_emergency returns ... every published snapshot ...
carries the emergency message as the current caption". -/
theorem C2_counterexample :
    (TriggerEmergency s2pre mEmg 60 100).emergencyOverride = true ∧
    (TriggerEmergency s2pre mEmg 60 100).currentDLS = some mOld ∧
    some mOld ≠ some mEmg :=
  ⟨rfl, rfl, by decide⟩

theorem tick_emergency_active (st : ContentScheduler) (m : ContentItem) (now : Int)
    (hov : st.emergencyOverride = true) (hc : st.emergencyContent = some m)
    (hw : now - st.emergencyStart < st.emergencyDuration) :
    ProcessScheduledContent st now =
      { st with currentMOT := some m, currentDLS := some m } := by
  unfold ProcessScheduledContent
  rw [hov, hc, if_pos hw]
  rfl

theorem tick_emergency_expired (st : ContentScheduler) (m : ContentItem) (now : Int)
    (hov : st.emergencyOverride = true) (hc : st.emergencyContent = some m)
    (hw : st.emergencyDuration ≤ now - st.emergencyStart) :
    ProcessScheduledContent st now =
      { st with
        emergencyOverride := false, emergencyContent := none,
        currentMOT := SelectNextMOTContent st.scheduledContent now,
        currentDLS := SelectNextDLSContent st.scheduledContent now } := by
  unfold ProcessScheduledContent
  rw [hov, hc,
    if_neg (show ¬(now - st.emergencyStart < st.emergencyDuration) from by omega)]
  rfl

theorem tick_idle (st : ContentScheduler) (now : Int)
    (hov : st.emergencyOverride = false) :
    ProcessScheduledContent st now =
      { st with
        currentMOT := SelectNextMOTContent st.scheduledContent now,
        currentDLS := SelectNextDLSContent st.scheduledContent now } := by
  unfold ProcessScheduledContent
  rw [hov]
  rfl

theorem runTicks_emergency (m : ContentItem) (t0 d : Int) :
    ∀ (ts : List Int) (st : ContentScheduler),
      st.emergencyOverride = true → st.emergencyContent = some m →
      st.emergencyStart = t0 → st.emergencyDuration = d →
      (∀ t ∈ ts, t - t0 < d) →
      ((runTicks st ts).emergencyOverride = true ∧
       (runTicks st ts).emergencyContent = some m ∧
       (runTicks st ts).emergencyStart = t0 ∧
       (runTicks st ts).emergencyDuration = d ∧
       (runTicks st ts).scheduledContent = st.scheduledContent) ∧
      (∀ s ∈ tickStates st ts,
        s.emergencyOverride = true ∧ s.currentDLS = some m ∧ s.currentMOT = some m) := by
  intro ts
  induction ts with
  | nil =>
    intro st h1 h2 h3 h4 _
    exact ⟨⟨h1, h2, h3, h4, rfl⟩, by intro s hs; exact absurd hs (by simp [tickStates])⟩
  | cons t ts ih =>
    intro st h1 h2 h3 h4 hts
    have hw : t - st.emergencyStart < st.emergencyDuration := by
      rw [h3, h4]
      exact hts t (List.mem_cons_self _ _)
    have hstep := tick_emergency_active st m t h1 h2 hw
    have ih' := ih { st with currentMOT := some m, currentDLS := some m }
      h1 h2 h3 h4 (fun u hu => hts u (List.mem_cons_of_mem _ hu))
    constructor
    · rw [runTicks, hstep]
      exact ih'.1
    · rw [tickStates, hstep]
      intro s hs
      rcases List.mem_cons.mp hs with rfl | hs'
      · exact ⟨h1, rfl, rfl⟩
      · exact ih'.2 s hs'

/-- C2 (amended): trigger_emergency sets the override at once; from the
first scheduler tick after it returns (activation is observed by the next
tick) until the duration elapses or clear_emergency runs, every published
snapshot has the override set and carries the emergency content in both
current slots; a tick at or past the deadline returns the state to idle
and republishes the regular scheduled selection, and so does the first
tick after clear_emergency. -/
theorem C2_emergency_override (st : ContentScheduler) (m : ContentItem) (d t0 : Int)
    (ts : List Int) (hts : ∀ t ∈ ts, t - t0 < d) :
    (TriggerEmergency st m d t0).emergencyOverride = true ∧
    (∀ s ∈ tickStates (TriggerEmergency st m d t0) ts,
      s.emergencyOverride = true ∧ s.currentDLS = some m ∧ s.currentMOT = some m) ∧
    (∀ tExp, d ≤ tExp - t0 →
      (ProcessScheduledContent (runTicks (TriggerEmergency st m d t0) ts) tExp).emergencyOverride = false ∧
      (ProcessScheduledContent (runTicks (TriggerEmergency st m d t0) ts) tExp).emergencyContent = none ∧
      (ProcessScheduledContent (runTicks (TriggerEmergency st m d t0) ts) tExp).currentDLS =
        SelectNextDLSContent st.scheduledContent tExp ∧
      (ProcessScheduledContent (runTicks (TriggerEmergency st m d t0) ts) tExp).currentMOT =
        SelectNextMOTContent st.scheduledContent tExp) ∧
    ((ClearEmergency (runTicks (TriggerEmergency st m d t0) ts)).emergencyOverride = false ∧
     (ClearEmergency (runTicks (TriggerEmergency st m d t0) ts)).emergencyContent = none ∧
     ∀ tAfter,
       (ProcessScheduledContent (ClearEmergency (runTicks (TriggerEmergency st m d t0) ts)) tAfter).currentDLS =
         SelectNextDLSContent st.scheduledContent tAfter) := by
  have hrun := runTicks_emergency m t0 d ts (TriggerEmergency st m d t0) rfl rfl rfl rfl hts
  obtain ⟨ho, hc, hs, hd, hsched⟩ := hrun.1
  refine ⟨rfl, hrun.2, ?_, rfl, rfl, ?_⟩
  · intro tExp hExp
    have hexp := tick_emergency_expired (runTicks (TriggerEmergency st m d t0) ts) m tExp
      ho hc (by rw [hs, hd]; omega)
    rw [hexp]
    refine ⟨rfl, rfl, ?_, ?_⟩ <;> (rw [hsched]; rfl)
  · intro tAfter
    have hidle := tick_idle (ClearEmergency (runTicks (TriggerEmergency st m d t0) ts)) tAfter rfl
    rw [hidle]
    show SelectNextDLSContent (runTicks (TriggerEmergency st m d t0) ts).scheduledContent tAfter =
      SelectNextDLSContent st.scheduledContent tAfter
    rw [hsched]
    rfl

/-- Witness for C2: one tick at time 101 inside the window of an emergency
triggered at time 100 with duration 60. -/
theorem C2_emergency_override_witness :
    (∀ t ∈ [(101 : Int)], t - 100 < 60) ∧
    (∀ s ∈ tickStates (TriggerEmergency s2pre mEmg 60 100) [101],
      s.emergencyOverride = true ∧ s.currentDLS = some mEmg ∧ s.currentMOT = some mEmg) :=
  ⟨by decide, (C2_emergency_override s2pre mEmg 60 100 [101] (by decide)).2.1⟩

/-! ## Slide selection scoring
Embedding of EnhancedMOTProcessor::CalculateFreshnessScore and
SelectBestImages (src/enhanced_mot.cpp lines 309-350), over real numbers
(the C++ computes in double; the divergence proved below is symbolic, not
a rounding artifact). Only the ImageQuality fields the scoring reads are
modelled. GetNextImage with smart selection enabled returns the slide at
the index SelectBestImages(1) yields. -/

/-- ImageQuality fields read by the scorer. -/
structure ImageQuality where
  sharpness : ℝ
  contrast : ℝ
  brightness : ℝ
  lastUsed : Int
  usageCount : Int

/-- A cached slide (only its quality enters the scoring). -/
structure EnhancedImageData where
  quality : ImageQuality

/-- CalculateFreshnessScore (lines 309-318): exp of minus the whole hours
since last use over 24, damped by usage count. -/
noncomputable def CalculateFreshnessScore (now : Int) (img : EnhancedImageData) : ℝ :=
  Real.exp (-((Int.tdiv (now - img.quality.lastUsed) 3600 : Int) : ℝ) / 24) *
    (1 / (1 + (img.quality.usageCount : ℝ) * (1/10)))

/-- Per-slide score of SelectBestImages (lines 325-337): note the
brightness component is (1 - brightness) * 0.1 — the code's comment says
"Prefer medium brightness" but the formula rewards darkness. -/
noncomputable def slideScore (now : Int) (img : EnhancedImageData) : ℝ :=
  img.quality.sharpness * (3/10) + img.quality.contrast * (2/10) +
  (1 - img.quality.brightness) * (1/10) + CalculateFreshnessScore now img * (4/10)

/-- Index selected by SelectBestImages(1): the first index of maximal
score (the unstable std::sort leaves ties unspecified; the first maximum
is the representative chosen). -/
noncomputable def SelectBestImage (now : Int) (imgs : List EnhancedImageData) : Option Nat :=
  (imgs.enum.foldl (fun acc p =>
    match acc with
    | none => some (p.1, slideScore now p.2)
    | some js => if js.2 < slideScore now p.2 then some (p.1, slideScore now p.2) else acc)
    none).map Prod.fst

/-- Modelled from the spec: the selection score claimed by C8, whose
brightness term is 0.1 * (1 - |brightness - 0.5| * 2); the freshness factor
is the same as the code's. -/
noncomputable def claimedSlideScore (now : Int) (img : EnhancedImageData) : ℝ :=
  (3/10) * img.quality.sharpness + (2/10) * img.quality.contrast +
  (1/10) * (1 - |img.quality.brightness - 1/2| * 2) +
  (4/10) * CalculateFreshnessScore now img

/-- A dark slide: brightness 0, all other scoring inputs shared (claim C8). -/
noncomputable def darkSlide : EnhancedImageData :=
  { quality := { sharpness := 1/2, contrast := 1/2, brightness := 0,
                 lastUsed := 1000, usageCount := 0 } }

/-- A medium-brightness slide: brightness 1/2, same other inputs (claim C8). -/
noncomputable def mediumSlide : EnhancedImageData :=
  { quality := { sharpness := 1/2, contrast := 1/2, brightness := 1/2,
                 lastUsed := 1000, usageCount := 0 } }

theorem freshness_dark : CalculateFreshnessScore 1000 darkSlide = 1 := by
  unfold CalculateFreshnessScore darkSlide
  norm_num [Real.exp_zero]

theorem freshness_medium : CalculateFreshnessScore 1000 mediumSlide = 1 := by
  unfold CalculateFreshnessScore mediumSlide
  norm_num [Real.exp_zero]

theorem slideScore_dark : slideScore 1000 darkSlide = 3/4 := by
  unfold slideScore
  rw [freshness_dark]
  unfold darkSlide
  norm_num

theorem slideScore_medium : slideScore 1000 mediumSlide = 7/10 := by
  unfold slideScore
  rw [freshness_medium]
  unfold mediumSlide
  norm_num

/-- C8: at two slides with identical sharpness, contrast and freshness
inputs and brightness 0 versus 0.5, the code selects the dark slide
(its brightness term is 0.1 * (1 - brightness)), while the claimed score —
matching the code's own "Prefer medium brightness" comment — is strictly
higher for the medium slide. This evaluates the code at the failing input
of the code_bug record. -/
theorem C8_brightness_divergence :
    SelectBestImage 1000 [darkSlide, mediumSlide] = some 0 ∧
    claimedSlideScore 1000 darkSlide < claimedSlideScore 1000 mediumSlide ∧
    darkSlide.quality.brightness = 0 ∧ mediumSlide.quality.brightness = 1/2 := by
  refine ⟨?_, ?_, rfl, rfl⟩
  · unfold SelectBestImage
    rw [show List.enum [darkSlide, mediumSlide] = [(0, darkSlide), (1, mediumSlide)] from rfl]
    rw [List.foldl_cons, List.foldl_cons, List.foldl_nil]
    dsimp only
    rw [slideScore_dark, slideScore_medium]
    rw [if_neg (show ¬((3:ℝ)/4 < 7/10) from by norm_num)]
    rfl
  · unfold claimedSlideScore
    rw [freshness_dark, freshness_medium]
    unfold darkSlide mediumSlide
    norm_num
    rw [show |(1 : ℝ)/2| = 1/2 from abs_of_nonneg (by norm_num)]
    norm_num
